import Mathlib

/-!
Verification of the vid-handout frame-sampling and selection pipeline.

The development shallowly embeds the core logic of the repository:

* `createFrameFromVideo`, `captureFrame`, `removeFrame` and the auto-capture
  scan loop of `FrameCapturer` (components/VideoUploader.tsx, third file),
* `generateHandoutContent` / `filterBestFrames` response handling of the
  Gemini service binding,
* the step/frame zipping of `HandoutDisplay`.

JS numbers are modelled as exact rationals (`ℚ`), JS exceptions as
`Except`, the external capabilities (video element, Gemini calls,
`JSON.parse`) as oracle parameters, and `undefined`-producing array reads
as `Option`.
-/

namespace VidHandout

/-- The `CapturedFrame` record of types.ts: an opaque id, the encoded image
data URL, the capture timestamp in seconds, and its `M:SS` rendering. -/
structure CapturedFrame where
  id : String
  dataUrl : String
  timestamp : ℚ
  originalTimeFormatted : String
deriving DecidableEq, Repr

instance : Inhabited CapturedFrame := ⟨⟨"", "", 0, ""⟩⟩

/-- JS `String.prototype.padStart(2, '0')` for the seconds field. -/
def padStart2 (s : String) : String :=
  if s.length < 2 then "0" ++ s else s

/-- JS `seconds % 60` for the nonnegative timestamps produced here
(`a - b * Math.floor(a / b)` coincides with the JS remainder for `a ≥ 0`). -/
def jsMod (a b : ℚ) : ℚ := a - b * (⌊a / b⌋ : ℚ)

/-- The `formatTime` closure of `createFrameFromVideo`:
`Math.floor(seconds / 60)` minutes, `Math.floor(seconds % 60)` seconds
padded to two digits, joined by a colon. -/
def formatTime (seconds : ℚ) : String :=
  let m : Int := ⌊seconds / 60⌋
  let s : Int := ⌊jsMod seconds 60⌋
  toString m ++ ":" ++ padStart2 (toString s)

/-- What one invocation of the browser-side capture can do, as reported by
the environment: the canvas encodes an image (with the random id and data
URL it produced), the canvas or its 2d context is missing (the function
returns `null`), or `canvas.toDataURL` throws a security error. -/
inductive CaptureResult
  | captured (frameId : String) (dataUrl : String)
  | nullResult
  | throwErr (msg : String)
deriving DecidableEq, Repr

/-- The errors that can escape the auto-capture pipeline, tagged by the spot
in the source that constructs them. -/
inductive ScanError
  | captureError (msg : String)
  | noFramesCaptured
  | selectionError (msg : String)
deriving DecidableEq, Repr

/-- The `Error.message` string each `ScanError` carries in the source:
`createFrameFromVideo` throws `Canvas export failed (Security/CORS): …`,
the empty-candidates branch throws `No valid frames could be captured.`,
and a `filterBestFrames` failure propagates its own message. -/
def ScanError.message : ScanError → String
  | .captureError m => "Canvas export failed (Security/CORS): " ++ m
  | .noFramesCaptured => "No valid frames could be captured."
  | .selectionError m => m

/-- `createFrameFromVideo(video)`: on a successful canvas export it builds
the frame record stamped with `video.currentTime`; with no canvas/context it
returns `null`; a tainted canvas makes it throw
`Canvas export failed (Security/CORS): …`. The environment's behaviour is
the `CaptureResult` argument. -/
def createFrameFromVideo (currentTime : ℚ) (result : CaptureResult) :
    Except ScanError (Option CapturedFrame) :=
  match result with
  | .captured i d => .ok (some ⟨i, d, currentTime, formatTime currentTime⟩)
  | .nullResult => .ok none
  | .throwErr msg => .error (.captureError msg)

/-- The constant `steps = 12` of `handleAutoCapture`. -/
def steps : Nat := 12

/-- The timestamps the auto-capture scan seeks to:
`interval * i` for `i = 1..steps` with `interval = duration / (steps + 1)`. -/
def scanTimestamps (duration : ℚ) : List ℚ :=
  (List.range' 1 steps).map (fun i : ℕ => duration / ((steps : ℚ) + 1) * (i : ℚ))

/-- The scan loop of `handleAutoCapture` (step 3): per timestamp it invokes
`createFrameFromVideo`; a returned frame is pushed onto `candidates`, a
`null` is logged and skipped, and a thrown error propagates out of the loop
(the surrounding `try` catches it outside, discarding the candidates). -/
def scanLoop (capture : ℚ → CaptureResult) :
    List ℚ → Except ScanError (List CapturedFrame)
  | [] => .ok []
  | t :: ts =>
    match createFrameFromVideo t (capture t) with
    | .error e => .error e
    | .ok none => scanLoop capture ts
    | .ok (some f) => (scanLoop capture ts).map (fun rest => f :: rest)

/-- JS `candidates[idx]` for an integer index: `undefined` (here `none`)
outside `[0, length)`. -/
def jsIndex {α : Type} (l : List α) (i : Int) : Option α :=
  if 0 ≤ i then l[i.toNat]? else none

/-- Step 4 of `handleAutoCapture`:
`selectedIndices.map(idx => candidates[idx]).filter(f => f !== undefined)`. -/
def finalFrames (selectedIndices : List Int) (candidates : List CapturedFrame) :
    List CapturedFrame :=
  (selectedIndices.map (fun idx => jsIndex candidates idx)).filterMap id

/-- `handleAutoCapture` after its precondition checks: run the scan loop
over the planned timestamps; with at least one candidate, ask the ranking
capability (`filterBestFrames`, an oracle that either yields the
`selectedIndices` array or throws) and adopt the mapped-and-filtered frames;
with zero candidates throw `No valid frames could be captured.`. -/
def handleAutoCapture (duration : ℚ) (capture : ℚ → CaptureResult)
    (filterBestFrames : List CapturedFrame → Except String (List Int)) :
    Except ScanError (List CapturedFrame) :=
  match scanLoop capture (scanTimestamps duration) with
  | .error e => .error e
  | .ok candidates =>
    if 0 < candidates.length then
      match filterBestFrames candidates with
      | .error msg => .error (.selectionError msg)
      | .ok selectedIndices => .ok (finalFrames selectedIndices candidates)
    else
      .error .noFramesCaptured

/-- The manual-capture state update: `setFrames(prev => [...prev, frame])`. -/
def captureFrame (frames : List CapturedFrame) (newFrame : CapturedFrame) :
    List CapturedFrame :=
  frames ++ [newFrame]

/-- The removal state update: `setFrames(prev => prev.filter(f => f.id !== id))`. -/
def removeFrame (frames : List CapturedFrame) (frameId : String) :
    List CapturedFrame :=
  frames.filter (fun f => f.id != frameId)

/-- Modelled from the spec for the refinement comparison of claim C1: its
words "map each [index] to the corresponding candidate, silently drop any
index outside [0, candidateCount), preserve the response's given order"
read as filtering the response down to the in-range indices and mapping
each survivor to its candidate. -/
def curatedSpec (selectedIndices : List Int) (candidates : List CapturedFrame) :
    List CapturedFrame :=
  (selectedIndices.filter
      (fun i => decide (0 ≤ i) && decide (i < (candidates.length : Int)))).map
    (fun i => candidates.getD i.toNat default)

/-- A valid JS index read yields the element. -/
lemma jsIndex_eq_some {α : Type} [Inhabited α] (l : List α) (i : Int)
    (h0 : 0 ≤ i) (h1 : i < (l.length : Int)) :
    jsIndex l i = some (l.getD i.toNat default) := by
  have hn : i.toNat < l.length := by omega
  simp [jsIndex, h0, List.getElem?_eq_getElem hn, List.getD_eq_getElem?_getD,
    List.getElem?_eq_getElem hn]

/-- An out-of-range JS index read yields `undefined`. -/
lemma jsIndex_eq_none {α : Type} (l : List α) (i : Int)
    (h : ¬(0 ≤ i ∧ i < (l.length : Int))) : jsIndex l i = none := by
  unfold jsIndex
  by_cases h0 : 0 ≤ i
  · have hn : l.length ≤ i.toNat := by omega
    simp [h0, List.getElem?_eq_none hn]
  · simp [h0]

/-- C1: the auto-select pipeline maps each returned index to its candidate,
silently drops every index outside `[0, n)`, and keeps the response's given
order: the code's map-then-drop-undefined equals the spec's
filter-in-range-then-map (so with `n = 10` and result `[2, 7, 15, 1]` the
curated set is `[candidates[2], candidates[7], candidates[1]]`). -/
theorem finalFrames_eq_curatedSpec (selectedIndices : List Int)
    (candidates : List CapturedFrame) :
    finalFrames selectedIndices candidates = curatedSpec selectedIndices candidates := by
  induction selectedIndices with
  | nil => rfl
  | cons i rest ih =>
    unfold finalFrames curatedSpec at ih ⊢
    by_cases h : 0 ≤ i ∧ i < (candidates.length : Int)
    · simp only [List.map_cons, List.filterMap_cons, jsIndex_eq_some _ _ h.1 h.2,
        List.filter_cons, ih]
      simp [h.1, h.2]
    · simp only [List.map_cons, List.filterMap_cons, jsIndex_eq_none _ _ h,
        List.filter_cons, ih]
      rcases Decidable.not_and_iff_or_not.mp h with h0 | h1
      · simp [h0]
      · simp [h1]

/-- Two concrete frames used by counterexamples and witnesses. -/
def frameA : CapturedFrame := ⟨"a", "data:image/jpeg;base64,AAA", 1, "0:01"⟩

def frameB : CapturedFrame := ⟨"b", "data:image/jpeg;base64,BBB", 2, "0:02"⟩

/-- C3 fails on the code: the selection result `[0, 0]` over two candidates
yields `candidates[0]` twice — the curated output is not deduplicated. -/
theorem curated_output_can_repeat :
    finalFrames [0, 0] [frameA, frameB] = [frameA, frameA] ∧
    1 < (finalFrames [0, 0] [frameA, frameB]).count frameA := by
  constructor
  · rfl
  · decide

/-- C3 (amended): the curated output is not deduplicated — a valid index
occurring `k` times in the selection result contributes `k` copies of its
candidate to the curated output. -/
theorem replicated_index_repeats_candidate (candidates : List CapturedFrame)
    (i : Int) (k : Nat) (h0 : 0 ≤ i) (h1 : i < (candidates.length : Int)) :
    finalFrames (List.replicate k i) candidates =
      List.replicate k (candidates.getD i.toNat default) := by
  induction k with
  | zero => rfl
  | succ n ih =>
    simp only [List.replicate_succ, finalFrames, List.map_cons, List.filterMap_cons,
      jsIndex_eq_some _ _ h0 h1]
    simpa [finalFrames] using ih

/-- Witness for the amended C3 at a concrete input: index 0 repeated twice
over two candidates yields the first candidate twice. -/
theorem replicated_index_repeats_candidate_witness :
    finalFrames (List.replicate 2 0) [frameA, frameB] =
      List.replicate 2 ([frameA, frameB].getD (Int.toNat 0) default) :=
  replicated_index_repeats_candidate [frameA, frameB] 0 2 (by decide) (by decide)

/-- The frame one loop iteration contributes: `some` of the stamped record
when the capture succeeds, `none` when it returns `null` or throws. -/
def captureToFrame (capture : ℚ → CaptureResult) (t : ℚ) : Option CapturedFrame :=
  match capture t with
  | .captured i d => some ⟨i, d, t, formatTime t⟩
  | _ => none

/-- When no planned timestamp makes the capture throw, the scan loop
completes and collects exactly the successful captures, in plan order. -/
lemma scanLoop_eq_ok (capture : ℚ → CaptureResult) (ts : List ℚ)
    (h : ∀ t ∈ ts, ∀ m, capture t ≠ CaptureResult.throwErr m) :
    scanLoop capture ts = .ok (ts.filterMap (captureToFrame capture)) := by
  induction ts with
  | nil => rfl
  | cons t ts ih =>
    have hmem : ∀ u ∈ ts, ∀ m, capture u ≠ CaptureResult.throwErr m :=
      fun u hu => h u (List.mem_cons_of_mem _ hu)
    cases hc : capture t with
    | throwErr m => exact absurd hc (h t (List.mem_cons_self _ _) m)
    | nullResult =>
      simp [scanLoop, createFrameFromVideo, hc, List.filterMap_cons, captureToFrame,
        ih hmem]
    | captured i d =>
      simp [scanLoop, createFrameFromVideo, hc, List.filterMap_cons, captureToFrame,
        Except.map, ih hmem]

/-- Surviving entries plus dropped entries account for the whole input. -/
lemma length_filterMap_add_countP {α β : Type} (f : α → Option β) (l : List α) :
    (l.filterMap f).length + l.countP (fun a => (f a).isNone) = l.length := by
  induction l with
  | nil => rfl
  | cons a l ih =>
    cases hf : f a with
    | none =>
      simp [List.filterMap_cons, hf, List.countP_cons]
      omega
    | some b =>
      simp [List.filterMap_cons, hf, List.countP_cons]
      omega

/-- The captured frames' timestamps form a sublist of the scan plan. -/
lemma timestamps_sublist (capture : ℚ → CaptureResult) (ts : List ℚ) :
    ((ts.filterMap (captureToFrame capture)).map
        (fun f => f.timestamp)).Sublist ts := by
  induction ts with
  | nil => simp
  | cons t ts ih =>
    cases hc : capture t with
    | captured i d =>
      simpa [List.filterMap_cons, captureToFrame, hc] using ih.cons₂ t
    | nullResult =>
      simpa [List.filterMap_cons, captureToFrame, hc] using ih.cons t
    | throwErr m =>
      simpa [List.filterMap_cons, captureToFrame, hc] using ih.cons t

/-- For a positive duration the planned timestamps strictly increase. -/
lemma scanTimestamps_sorted (D : ℚ) (hD : 0 < D) :
    (scanTimestamps D).Pairwise (· < ·) := by
  have hpos : 0 < D / ((steps : ℚ) + 1) := by
    apply div_pos hD
    norm_num [steps]
  have base : (List.range' 1 steps).Pairwise (· < ·) := by decide
  unfold scanTimestamps
  exact base.map _ (fun a b hab =>
    mul_lt_mul_of_pos_left (by exact_mod_cast hab) hpos)

/-- For a positive duration the planned timestamps lie strictly inside
`(0, D)`. -/
lemma scanTimestamps_mem_bounds (D : ℚ) (hD : 0 < D) :
    ∀ t ∈ scanTimestamps D, 0 < t ∧ t < D := by
  intro t ht
  simp only [scanTimestamps, List.mem_map] at ht
  obtain ⟨i, hi, rfl⟩ := ht
  have hi2 := List.mem_range'_1.mp hi
  have h13 : (0 : ℚ) < (steps : ℚ) + 1 := by norm_num [steps]
  constructor
  · apply mul_pos (div_pos hD h13)
    have h0i : 0 < i := by omega
    exact_mod_cast h0i
  · rw [div_mul_eq_mul_div, div_lt_iff₀ h13]
    apply mul_lt_mul_of_pos_left _ hD
    have hlt : i < steps + 1 := by omega
    exact_mod_cast hlt

/-- C4: for every duration `D > 0` the auto-scan samples exactly the
timestamps `D * i / (steps + 1)` for `i = 1..steps` with `steps = 12`, and
these are strictly increasing and lie strictly within `(0, D)` (JS numbers
modelled as exact rationals). -/
theorem scanTimestamps_spec (D : ℚ) (hD : 0 < D) :
    scanTimestamps D =
      (List.range' 1 steps).map (fun i : ℕ => D * (i : ℚ) / ((steps : ℚ) + 1)) ∧
    (scanTimestamps D).Pairwise (· < ·) ∧
    ∀ t ∈ scanTimestamps D, 0 < t ∧ t < D := by
  refine ⟨?_, scanTimestamps_sorted D hD, scanTimestamps_mem_bounds D hD⟩
  unfold scanTimestamps
  congr 1
  funext i
  ring

/-- Witness for C4 at the concrete duration 13. -/
theorem scanTimestamps_spec_witness :
    (0 : ℚ) < 13 ∧
    (scanTimestamps 13 =
        (List.range' 1 steps).map (fun i : ℕ => 13 * (i : ℚ) / ((steps : ℚ) + 1)) ∧
      (scanTimestamps 13).Pairwise (· < ·) ∧
      ∀ t ∈ scanTimestamps 13, 0 < t ∧ t < 13) :=
  ⟨by norm_num, scanTimestamps_spec 13 (by norm_num)⟩

/-- A capture oracle that throws a security error at the first planned
timestamp of a 13-second video and succeeds everywhere else. -/
def captureThrowAtFirst : ℚ → CaptureResult := fun t =>
  if t = 1 then .throwErr "SecurityError" else .captured "x" "data:image/jpeg;base64,XXX"

/-- A ranking oracle that selects every candidate in order. -/
def identitySelection : List CapturedFrame → Except String (List Int) := fun cs =>
  .ok ((List.range cs.length).map Int.ofNat)

/-- C2 fails on the code as stated: a single capture failure of the throwing
kind (tainted-canvas security error) at one of the 12 timestamps aborts the
whole scan with a capture error instead of being skipped and yielding
`steps - 1 = 11` frames. -/
theorem single_throwing_failure_aborts_scan :
    handleAutoCapture 13 captureThrowAtFirst identitySelection =
      .error (ScanError.captureError "SecurityError") := by
  have hrange : List.range' 1 steps = [1, 2, 3, 4, 5, 6, 7, 8, 9, 10, 11, 12] := rfl
  have h1 : (13 : ℚ) / ((steps : ℚ) + 1) * ((1 : ℕ) : ℚ) = 1 := by
    norm_num [steps]
  have hcap : captureThrowAtFirst 1 = CaptureResult.throwErr "SecurityError" := by
    unfold captureThrowAtFirst
    rw [if_pos rfl]
  unfold handleAutoCapture scanTimestamps
  rw [hrange]
  simp only [List.map_cons, h1]
  simp [scanLoop, createFrameFromVideo, hcap]

/-- C2 (amended): a capture failure in which the extractor returns no frame
(`null`) is skipped without aborting: if no planned timestamp makes the
capture throw and `k` of the `steps = 12` captures return `null`, the scan
completes with exactly `steps - k` candidates whose timestamps strictly
increase. A throwing capture failure instead aborts the scan. -/
theorem scan_skips_null_failures (D : ℚ) (capture : ℚ → CaptureResult) (hD : 0 < D)
    (hnothrow : ∀ t ∈ scanTimestamps D, ∀ m, capture t ≠ CaptureResult.throwErr m) :
    ∃ cs, scanLoop capture (scanTimestamps D) = .ok cs ∧
      cs.length =
        steps -
          (scanTimestamps D).countP
            (fun t => decide (capture t = CaptureResult.nullResult)) ∧
      cs.Pairwise (fun a b => a.timestamp < b.timestamp) := by
  refine ⟨(scanTimestamps D).filterMap (captureToFrame capture),
    scanLoop_eq_ok _ _ hnothrow, ?_, ?_⟩
  · have hlen := length_filterMap_add_countP (captureToFrame capture) (scanTimestamps D)
    have hcount :
        (scanTimestamps D).countP (fun t => (captureToFrame capture t).isNone) =
          (scanTimestamps D).countP
            (fun t => decide (capture t = CaptureResult.nullResult)) := by
      apply List.countP_congr
      intro t ht
      cases hc : capture t with
      | captured i d => simp [captureToFrame, hc]
      | nullResult => simp [captureToFrame, hc]
      | throwErr m => exact absurd hc (hnothrow t ht m)
    have htslen : (scanTimestamps D).length = steps := by
      unfold scanTimestamps
      rw [List.length_map, List.length_range']
    omega
  · have hpw := (scanTimestamps_sorted D hD).sublist (timestamps_sublist capture _)
    exact (List.pairwise_map).mp hpw

/-- A capture oracle that returns `null` at timestamp 2 of a 13-second
video and succeeds everywhere else. -/
def captureOneNull : ℚ → CaptureResult := fun t =>
  if t = 2 then .nullResult else .captured "x" "data:image/jpeg;base64,XXX"

/-- Witness for the amended C2 at a concrete input: duration 13 and one
null-returning capture. -/
theorem scan_skips_null_failures_witness :
    (0 : ℚ) < 13 ∧
    ∃ cs, scanLoop captureOneNull (scanTimestamps 13) = .ok cs ∧
      cs.length =
        steps -
          (scanTimestamps 13).countP
            (fun t => decide (captureOneNull t = CaptureResult.nullResult)) ∧
      cs.Pairwise (fun a b => a.timestamp < b.timestamp) :=
  ⟨by norm_num, scan_skips_null_failures 13 captureOneNull (by norm_num)
    (by
      intro t ht m h
      unfold captureOneNull at h
      split at h <;> simp_all)⟩

/-- C6: when the scan loop finishes with zero captured candidates,
`handleAutoCapture` fails with the `No valid frames could be captured.`
error whatever the ranking oracle is (so `filterBestFrames` is never
consulted), and that error is distinct — as a value and as a JS `Error`
message — from a per-frame capture error. -/
theorem noFrames_error_and_no_selection (D : ℚ) (capture : ℚ → CaptureResult)
    (hall : ∀ t ∈ scanTimestamps D, capture t = CaptureResult.nullResult) :
    (∀ fbf, handleAutoCapture D capture fbf =
        .error ScanError.noFramesCaptured) ∧
    (∀ m, ScanError.noFramesCaptured ≠ ScanError.captureError m) ∧
    (∀ m, ScanError.noFramesCaptured.message ≠ (ScanError.captureError m).message) := by
  have hnothrow : ∀ t ∈ scanTimestamps D, ∀ m, capture t ≠ CaptureResult.throwErr m := by
    intro t ht m h
    rw [hall t ht] at h
    exact CaptureResult.noConfusion h
  have hempty : (scanTimestamps D).filterMap (captureToFrame capture) = [] := by
    rw [List.filterMap_eq_nil_iff]
    intro t ht
    simp [captureToFrame, hall t ht]
  refine ⟨?_, ?_, ?_⟩
  · intro fbf
    unfold handleAutoCapture
    rw [scanLoop_eq_ok _ _ hnothrow, hempty]
    rfl
  · intro m h
    exact ScanError.noConfusion h
  · intro m h
    have hlen := congrArg String.length h
    simp only [ScanError.message, String.length_append] at hlen
    have e1 : ("No valid frames could be captured.").length = 34 := rfl
    have e2 : ("Canvas export failed (Security/CORS): ").length = 38 := rfl
    omega

/-- Witness for C6 at a concrete input: a capture oracle that always
returns `null`. -/
theorem noFrames_error_and_no_selection_witness :
    (∀ fbf, handleAutoCapture 13 (fun _ => CaptureResult.nullResult) fbf =
        .error ScanError.noFramesCaptured) ∧
    (∀ m, ScanError.noFramesCaptured ≠ ScanError.captureError m) ∧
    (∀ m, ScanError.noFramesCaptured.message ≠ (ScanError.captureError m).message) :=
  noFrames_error_and_no_selection 13 (fun _ => CaptureResult.nullResult)
    (fun _ _ => rfl)

/-- A third concrete frame, later than `frameA` and `frameB`. -/
def frameC : CapturedFrame := ⟨"c", "data:image/jpeg;base64,CCC", 3, "0:03"⟩

/-- C7 fails on the code: the manual-capture append `[...prev, frame]` puts
the new frame at the end whatever its timestamp, and adopting a selection
result keeps the response's order; both can leave the frame list out of
non-decreasing timestamp order. -/
theorem manual_capture_breaks_order :
    captureFrame [frameB] frameA = [frameB, frameA] ∧
    ¬(captureFrame [frameB] frameA).Pairwise (fun a b => a.timestamp ≤ b.timestamp) ∧
    finalFrames [1, 0] [frameA, frameB] = [frameB, frameA] ∧
    ¬(finalFrames [1, 0] [frameA, frameB]).Pairwise
        (fun a b => a.timestamp ≤ b.timestamp) := by
  refine ⟨rfl, by decide, by decide, by decide⟩

/-- C7 (amended): manual removal preserves an existing non-decreasing
timestamp order and the auto-scan's candidate list is built in
non-decreasing (indeed increasing) timestamp order, but a manual capture
preserves the order only when the newly captured frame's timestamp is at
least every existing one; the adopted selection result keeps the response's
order, which need not be chronological. -/
theorem order_preserving_operations (frames : List CapturedFrame) (rid : String)
    (f : CapturedFrame) (D : ℚ) (capture : ℚ → CaptureResult) (hD : 0 < D)
    (hsorted : frames.Pairwise (fun a b => a.timestamp ≤ b.timestamp))
    (hle : ∀ g ∈ frames, g.timestamp ≤ f.timestamp)
    (hnothrow : ∀ t ∈ scanTimestamps D, ∀ m, capture t ≠ CaptureResult.throwErr m) :
    (removeFrame frames rid).Pairwise (fun a b => a.timestamp ≤ b.timestamp) ∧
    (captureFrame frames f).Pairwise (fun a b => a.timestamp ≤ b.timestamp) ∧
    ∃ cs, scanLoop capture (scanTimestamps D) = .ok cs ∧
      cs.Pairwise (fun a b => a.timestamp ≤ b.timestamp) := by
  refine ⟨?_, ?_, ?_⟩
  · exact hsorted.sublist (List.filter_sublist frames)
  · rw [captureFrame, List.pairwise_append]
    refine ⟨hsorted, by simp, ?_⟩
    intro a ha b hb
    rw [List.mem_singleton] at hb
    subst hb
    exact hle a ha
  · refine ⟨(scanTimestamps D).filterMap (captureToFrame capture),
      scanLoop_eq_ok _ _ hnothrow, ?_⟩
    have hpw := (scanTimestamps_sorted D hD).sublist (timestamps_sublist capture _)
    exact ((List.pairwise_map).mp hpw).imp le_of_lt

/-- Witness for the amended C7 at concrete inputs: a sorted two-frame list,
a later third frame, and an always-succeeding capture over duration 13. -/
theorem order_preserving_operations_witness :
    (removeFrame [frameA, frameB] "z").Pairwise
        (fun a b => a.timestamp ≤ b.timestamp) ∧
    (captureFrame [frameA, frameB] frameC).Pairwise
        (fun a b => a.timestamp ≤ b.timestamp) ∧
    ∃ cs,
      scanLoop (fun _ => CaptureResult.captured "x" "data:image/jpeg;base64,XXX")
          (scanTimestamps 13) = .ok cs ∧
      cs.Pairwise (fun a b => a.timestamp ≤ b.timestamp) :=
  order_preserving_operations [frameA, frameB] "z" frameC 13
    (fun _ => CaptureResult.captured "x" "data:image/jpeg;base64,XXX")
    (by norm_num) (by decide) (by decide) (fun _ _ _ h => CaptureResult.noConfusion h)

/-- The comparator key of `sort((a, b) => a.timestamp - b.timestamp)`. -/
def byTimestamp (a b : CapturedFrame) : Prop := a.timestamp ≤ b.timestamp

instance : DecidableRel byTimestamp := fun a b =>
  inferInstanceAs (Decidable (a.timestamp ≤ b.timestamp))

instance : IsTotal CapturedFrame byTimestamp :=
  ⟨fun a b => le_total a.timestamp b.timestamp⟩

instance : IsTrans CapturedFrame byTimestamp :=
  ⟨fun _ _ _ h1 h2 => le_trans h1 h2⟩

/-- `[...frames].sort((a, b) => a.timestamp - b.timestamp)`: an ascending
stable sort by timestamp (ES2019 `Array.prototype.sort` is stable),
modelled by insertion sort. -/
def sortFramesByTimestamp (frames : List CapturedFrame) : List CapturedFrame :=
  List.insertionSort byTimestamp frames

/-- `processBase64Image`: `dataUrl.split(',')[1]`, the payload after the
first comma (`canvas.toDataURL` always emits one; a missing piece is
modelled as the empty string). -/
def processBase64Image (dataUrl : String) : String :=
  (dataUrl.splitOn ",").getD 1 ""

/-- The ordered image parts `generateHandoutContent` submits to the
generation capability: the base64 payload of each frame, frames taken in
sorted-by-timestamp order. -/
def submittedParts (frames : List CapturedFrame) : List String :=
  (sortFramesByTimestamp frames).map (fun f => processBase64Image f.dataUrl)

/-- C8: `generateHandoutContent` submits the frames reordered into
non-decreasing timestamp order whatever order the caller supplied: the
sorted list is a permutation of the input, is sorted by timestamp, and is
exactly what the submitted image parts are read from. -/
theorem submission_sorted_by_timestamp (frames : List CapturedFrame) :
    (sortFramesByTimestamp frames).Perm frames ∧
    (sortFramesByTimestamp frames).Pairwise (fun a b => a.timestamp ≤ b.timestamp) ∧
    submittedParts frames =
      (sortFramesByTimestamp frames).map (fun f => processBase64Image f.dataUrl) :=
  ⟨List.perm_insertionSort byTimestamp frames,
    List.sorted_insertionSort byTimestamp frames, rfl⟩

/-- The `HandoutStep` record of types.ts. -/
structure HandoutStep where
  stepNumber : Int
  title : String
  description : String
  tips : Option String
deriving DecidableEq, Repr

/-- The `HandoutData` record of types.ts. -/
structure HandoutData where
  title : String
  summary : String
  steps : List HandoutStep
deriving DecidableEq, Repr

/-- `HandoutDisplay`'s `stepsWithImages`: `data.steps.map((step, index) =>
({...step, image: sortedFrames[index] || null}))` with `sortedFrames` the
timestamp-sorted copy of `frames`; an out-of-range read gives `undefined`,
turned into `null` (`none`) by `|| null`. -/
def stepsWithImages (data : HandoutData) (frames : List CapturedFrame) :
    List (HandoutStep × Option CapturedFrame) :=
  data.steps.enum.map (fun p => (p.2, (sortFramesByTimestamp frames)[p.1]?))

/-- C9: the display pairs the n-th step with the n-th frame of the
timestamp-sorted frame list, renders every step (the zipped list has one
entry per step, so rendering is total — never throws), and a step whose
position is beyond the frame count gets no image. -/
theorem display_zips_by_position (data : HandoutData) (frames : List CapturedFrame)
    (n : Nat) (hn : n < data.steps.length) :
    (stepsWithImages data frames).length = data.steps.length ∧
    (stepsWithImages data frames)[n]? =
      some (data.steps.get ⟨n, hn⟩, (sortFramesByTimestamp frames)[n]?) ∧
    (frames.length ≤ n →
      (stepsWithImages data frames)[n]? = some (data.steps.get ⟨n, hn⟩, none)) := by
  have hget : (stepsWithImages data frames)[n]? =
      some (data.steps.get ⟨n, hn⟩, (sortFramesByTimestamp frames)[n]?) := by
    unfold stepsWithImages
    rw [List.getElem?_map, List.getElem?_enum, List.getElem?_eq_getElem hn]
    simp
  refine ⟨?_, hget, fun hfn => ?_⟩
  · unfold stepsWithImages
    rw [List.length_map, List.enum_length]
  · have hsortlen : (sortFramesByTimestamp frames).length = frames.length :=
      (List.perm_insertionSort byTimestamp frames).length_eq
    rw [hget, List.getElem?_eq_none (by omega)]

/-- Concrete steps and a document for the C9 witness. -/
def demoStep1 : HandoutStep := ⟨1, "Step one", "Do the first thing", none⟩

def demoStep2 : HandoutStep := ⟨2, "Step two", "Do the second thing", some "Careful"⟩

def demoData : HandoutData := ⟨"Demo", "Two steps", [demoStep1, demoStep2]⟩

/-- Witness for C9 at a concrete input: two steps, one frame — the second
step is rendered with no image. -/
theorem display_zips_by_position_witness :
    (stepsWithImages demoData [frameA]).length = demoData.steps.length ∧
    (stepsWithImages demoData [frameA])[1]? =
      some (demoData.steps.get ⟨1, by decide⟩, (sortFramesByTimestamp [frameA])[1]?) ∧
    ([frameA].length ≤ 1 →
      (stepsWithImages demoData [frameA])[1]? =
        some (demoData.steps.get ⟨1, by decide⟩, none)) :=
  display_zips_by_position demoData [frameA] 1 (by decide)

/-- A heap of JS arrays of frames, addressed by reference (array identity),
used to model mutation visibility. -/
def readArray (heap : List (List CapturedFrame)) (ref : Nat) : List CapturedFrame :=
  heap.getD ref []

/-- The spread `[...frames]`: allocate a fresh array holding the same
elements; the new reference is the next free slot. -/
def allocSpreadCopy (heap : List (List CapturedFrame)) (ref : Nat) :
    List (List CapturedFrame) × Nat :=
  (heap ++ [readArray heap ref], heap.length)

/-- `arr.sort(...)` mutates the array behind `ref` in place. -/
def sortRefInPlace (heap : List (List CapturedFrame)) (ref : Nat) :
    List (List CapturedFrame) :=
  heap.set ref (sortFramesByTimestamp (readArray heap ref))

/-- The frame-visible effect of `generateHandoutContent` on the caller's
array: `const sortedFrames = [...frames].sort((a, b) => a.timestamp -
b.timestamp)` spread-copies the caller's array and sorts the copy in place;
the result is the heap afterwards together with the copy's reference. -/
def generateHandoutSortStep (heap : List (List CapturedFrame)) (ref : Nat) :
    List (List CapturedFrame) × Nat :=
  let alloc := allocSpreadCopy heap ref
  (sortRefInPlace alloc.1 alloc.2, alloc.2)

/-- C10: `generateHandoutContent` does not mutate its argument — after the
sort step the caller's array holds the same elements in the same order,
the in-place sort having been applied only to the fresh copy (which does
hold the sorted elements). -/
theorem generateHandout_no_mutation (heap : List (List CapturedFrame)) (ref : Nat)
    (href : ref < heap.length) :
    readArray (generateHandoutSortStep heap ref).1 ref = readArray heap ref ∧
    readArray (generateHandoutSortStep heap ref).1 (generateHandoutSortStep heap ref).2 =
      sortFramesByTimestamp (readArray heap ref) := by
  unfold generateHandoutSortStep allocSpreadCopy sortRefInPlace
  constructor
  · unfold readArray
    rw [List.getD_eq_getElem?_getD, List.getD_eq_getElem?_getD,
      List.getElem?_set_ne (by omega), List.getElem?_append, if_pos href]
  · unfold readArray
    rw [List.getD_eq_getElem?_getD, List.getElem?_set_self', List.getElem?_concat_length]
    simp [List.getD_eq_getElem?_getD, List.getElem?_concat_length, Function.const]

/-- Witness for C10 at a concrete input: one out-of-order two-frame array. -/
theorem generateHandout_no_mutation_witness :
    readArray (generateHandoutSortStep [[frameB, frameA]] 0).1 0 =
      readArray [[frameB, frameA]] 0 ∧
    readArray (generateHandoutSortStep [[frameB, frameA]] 0).1
        (generateHandoutSortStep [[frameB, frameA]] 0).2 =
      sortFramesByTimestamp (readArray [[frameB, frameA]] 0) :=
  generateHandout_no_mutation [[frameB, frameA]] 0 (by decide)

/-- A JSON value, as `JSON.parse` can produce one. -/
inductive Json
  | null
  | bool (b : Bool)
  | num (q : ℚ)
  | str (s : String)
  | arr (elems : List Json)
  | obj (fields : List (String × Json))

/-- Property lookup on a parsed JSON object; `none` is JS `undefined`. -/
def Json.lookupField : Json → String → Option Json
  | .obj fields, key => fields.lookup key
  | _, _ => none

/-- Whether a parsed value carries every field the handout schema marks
required at the top level (`title`, `summary`, `steps`); a document missing
one of them is partially populated. -/
def isCompleteHandout (j : Json) : Bool :=
  (j.lookupField "title").isSome && (j.lookupField "summary").isSome &&
    (j.lookupField "steps").isSome

/-- The response handling of `generateHandoutContent`: submit the sorted
frames' image parts to the generation capability (the `generateContent`
oracle, yielding `response.text` — `none` for `undefined`); `if (!text)
throw new Error("No response from Gemini")`; then `JSON.parse(text) as
HandoutData` — the `jsonParse` oracle models `JSON.parse`, whose failure
is a thrown `SyntaxError`, and whose success value is returned as-is (the
`as` cast performs no validation). -/
def generateHandoutContent (frames : List CapturedFrame)
    (generateContent : List String → Option String)
    (jsonParse : String → Option Json) : Except String Json :=
  let sortedFrames := sortFramesByTimestamp frames
  let parts := sortedFrames.map (fun f => processBase64Image f.dataUrl)
  match generateContent parts with
  | none => .error "No response from Gemini"
  | some text =>
    if text = "" then .error "No response from Gemini"
    else
      match jsonParse text with
      | none => .error "SyntaxError: JSON parse failed"
      | some value => .ok value

/-- C5 fails on the code: when the external call returns the syntactically
valid payload `(empty object)`, `generateHandoutContent` returns it even
though it lacks all the required fields — the client performs no schema
validation, so a partially-populated document can be returned. -/
theorem parse_returns_incomplete_document :
    generateHandoutContent [] (fun _ => some "x") (fun _ => some (Json.obj [])) =
      .ok (Json.obj []) ∧
    isCompleteHandout (Json.obj []) = false :=
  ⟨rfl, rfl⟩

/-- C5 (amended): a missing or empty payload and an unparsable payload each
fail with a thrown error, but a successfully parsed payload is returned
exactly as parsed, without client-side validation against the handout
schema (schema enforcement is delegated to the external capability via its
`responseSchema` configuration). -/
theorem generate_errors_or_returns_raw (frames : List CapturedFrame)
    (generateContent : List String → Option String)
    (jsonParse : String → Option Json) :
    (generateContent (submittedParts frames) = none →
      generateHandoutContent frames generateContent jsonParse =
        .error "No response from Gemini") ∧
    (∀ text, generateContent (submittedParts frames) = some text → text = "" →
      generateHandoutContent frames generateContent jsonParse =
        .error "No response from Gemini") ∧
    (∀ text, generateContent (submittedParts frames) = some text → text ≠ "" →
      jsonParse text = none →
      generateHandoutContent frames generateContent jsonParse =
        .error "SyntaxError: JSON parse failed") ∧
    (∀ text value, generateContent (submittedParts frames) = some text → text ≠ "" →
      jsonParse text = some value →
      generateHandoutContent frames generateContent jsonParse = .ok value) := by
  refine ⟨?_, ?_, ?_, ?_⟩
  · intro h
    have h2 : generateContent
        ((sortFramesByTimestamp frames).map (fun f => processBase64Image f.dataUrl)) =
          none := h
    simp [generateHandoutContent, h2]
  · intro text h htext
    subst htext
    have h2 : generateContent
        ((sortFramesByTimestamp frames).map (fun f => processBase64Image f.dataUrl)) =
          some "" := h
    simp [generateHandoutContent, h2]
  · intro text h htext hparse
    have h2 : generateContent
        ((sortFramesByTimestamp frames).map (fun f => processBase64Image f.dataUrl)) =
          some text := h
    simp [generateHandoutContent, h2, htext, hparse]
  · intro text value h htext hparse
    have h2 : generateContent
        ((sortFramesByTimestamp frames).map (fun f => processBase64Image f.dataUrl)) =
          some text := h
    simp [generateHandoutContent, h2, htext, hparse]

/-- Witness applying the amended C5's unparsable-payload branch at a
concrete input. -/
theorem generate_errors_or_returns_raw_witness :
    generateHandoutContent [] (fun _ => some "x") (fun _ => none) =
      .error "SyntaxError: JSON parse failed" :=
  (generate_errors_or_returns_raw [] (fun _ => some "x") (fun _ => none)).2.2.1
    "x" rfl (by decide) rfl

end VidHandout
